import Mathlib

/-!
Shallow embedding of `src/src/InterfaceVillas.cpp` (dpsim-villas), the
sample-based I/O adapter bridging the DPsim simulation engine to a
VILLASnode transport endpoint.

Foreign behaviour (node read/write results, clock values, host hooks, the
residual contents of pool buffers) is supplied by explicit environment
records; exceptions crossing the C++ boundary are values of `Err`.
Machine integer return codes are `Int`; the 64-bit sequence counter is
`Nat` (the spec calls it a monotonic 64-bit counter and no claim involves
wrap-around).
-/

namespace InterfaceVillas

/-- Exceptions that cross the adapter boundary.  `jsonError` models the
`JsonError(config, error)` thrown by the constructor with the parser
diagnostic; `runtimeMemoryInit` the `RuntimeError` of constructor line 63;
`runtimeTypeStart` the `RuntimeError` of `open` line 90; `hook` an
arbitrary `std::exception` raised by a host importer/exporter callable. -/
inductive Err where
  | jsonError (line column : Nat)
  | runtimeMemoryInit
  | runtimeTypeStart
  | hook (id : Nat)
deriving DecidableEq

/-- The villas `Sample` record, restricted to the fields the adapter code
touches: `sequence`, `flags`, the origin timestamp (`ts.origin.tv_sec` /
`tv_nsec`), the non-owning `signals` descriptor reference (modelled as an
identifier), and the `data` array (modelled as a list of signal values). -/
structure Sample where
  sequence : Nat
  flags : Nat
  tsSec : Int
  tsNsec : Int
  signals : Nat
  data : List Int
deriving DecidableEq

/-- Modelled from the spec: the flags bitset carries "at minimum a
`HAS_DATA` bit" (section 3); the numeric value of
`villas::node::SampleFlags::HAS_DATA` lives in VILLASnode, outside src/,
so we fix bit 0 for it. -/
def HAS_DATA : Nat := 1

/-- Whether the `HAS_DATA` bit is set on a sample's flags. -/
def hasData (s : Sample) : Bool := s.flags.testBit 0

/-- Adapter state owned by one `InterfaceVillas` instance: the outbound
sequence counter `mSequence`, the Last-Known-Good slot `mLastSample`, and
the `mOpened` flag. -/
structure State where
  mSequence : Nat
  mLastSample : Sample
  mOpened : Bool
deriving DecidableEq

/-- Modelled from the spec: pool `allocate()` "yields an initialized,
zero-refcount + incref sample of the pool's configured capacity"
(section 4.3); `node::sample_alloc` itself is VILLASnode code outside
src/.  Metadata (sequence, flags, timestamps) starts cleared; the data
buffer holds whatever the reused pool slot held (`raw`).  The adapter
immediately assigns `sample->signals = mNode->getInputSignals(false)`,
folded in here via `signals`. -/
def sampleAlloc (raw : List Int) (signals : Nat) : Sample :=
  { sequence := 0, flags := 0, tsSec := 0, tsNsec := 0,
    signals := signals, data := raw }

/-- Hook dispatch loop `for (auto exp : mExports) exp(sample);` (and the
identically shaped importer loop).  A hook either transforms the sample it
is handed (C++ mutation through the pointer) or raises.  Returns the
number of hooks actually invoked together with the outcome; dispatch
stops at the first raising hook, exactly as a C++ range-for unwinds. -/
def runHooks : List (Sample → Except Err Sample) → Sample → Nat × Except Err Sample
  | [], s => (0, Except.ok s)
  | f :: fs, s =>
    match f s with
    | Except.error e => (1, Except.error e)
    | Except.ok s1 =>
      let r := runHooks fs s1
      (r.1 + 1, r.2)

/-- Decidable equality for `Except`, needed to evaluate concrete claims
about foreign-call oracles. -/
instance instDecEqExcept {ε α : Type} [DecidableEq ε] [DecidableEq α] :
    DecidableEq (Except ε α) := fun a b =>
  match a, b with
  | Except.ok x, Except.ok y =>
    if h : x = y then isTrue (congrArg Except.ok h)
    else isFalse (fun hh => h (Except.ok.inj hh))
  | Except.error x, Except.error y =>
    if h : x = y then isTrue (congrArg Except.error h)
    else isFalse (fun hh => h (Except.error.inj hh))
  | Except.ok _, Except.error _ => isFalse (fun hh => Except.noConfusion hh)
  | Except.error _, Except.ok _ => isFalse (fun hh => Except.noConfusion hh)

/-- Exit of a transport retry loop `while (ret == 0) ret = mNode->...`:
the loop ends with a nonzero return `code`, the foreign call `raised` an
exception, or the oracle of foreign results is exhausted while every call
returned 0 (`spun`: the C++ loop would still be spinning). -/
inductive LoopRes where
  | code (r : Int) (rest : List (Except Err Int))
  | raised (e : Err) (rest : List (Except Err Int))
  | spun
deriving DecidableEq

/-- The retry loop over an oracle of successive foreign-call results.
Both `do { ret = mNode->write(...); } while (ret == 0);` and
`while (ret == 0) ret = mNode->read(...);` enter with `ret == 0`, so both
consume oracle entries while they are `ok 0`.  Returns the number of
foreign calls made together with the exit. -/
def drainLoop : List (Except Err Int) → Nat × LoopRes
  | [] => (0, LoopRes.spun)
  | Except.error e :: rest => (1, LoopRes.raised e rest)
  | Except.ok r :: rest =>
    if r = 0 then
      let d := drainLoop rest
      (d.1 + 1, d.2)
    else (1, LoopRes.code r rest)

/-- Sample framing, `InterfaceVillas::writeValues` lines 168-170: assign
`sample->sequence = mSequence++` (the pre-increment value `seq`), or
`HAS_DATA` into the flags, and store the `clock_gettime(CLOCK_REALTIME)`
result `now` into `ts.origin`. -/
def frameSample (seq : Nat) (now : Int × Int) (s : Sample) : Sample :=
  { s with sequence := seq, flags := s.flags ||| HAS_DATA,
           tsSec := now.1, tsNsec := now.2 }

/-- Environment of one `writeValues` call: the residual contents `raw` of
the buffer `sample_alloc` hands out, the node's input-signal descriptor,
the registered exporter hooks `mExports`, the `clock_gettime` result, and
the oracle of successive `mNode->write` results consumed by the retry
loops (in order, across both the normal loop and the handler loop). -/
structure WriteEnv where
  raw : List Int
  signals : Nat
  exports : List (Sample → Except Err Sample)
  now : Int × Int
  writes : List (Except Err Int)

/-- Observable result of one `writeValues` call.  `submitted` lists the
payload of every `mNode->write` invocation in order; `caught` is the
exception entering the catch handler (if any); `escaped` the exception
propagating to the caller (a throw from the handler's own write loop);
`retCode` the final `ret` when the function returned through a completed
loop; `framed` the `done` flag; `copiedToLast` whether
`sample_copy(mLastSample, sample)` executed; `allocs`/`decrefs` count
pool acquisitions and releases performed by the call; `wouldSpin` marks
an exhausted oracle (the C++ loop would not have terminated). -/
structure WriteResult where
  state : State
  submitted : List Sample
  exportsRun : Nat
  caught : Option Err
  escaped : Option Err
  retCode : Option Int
  loggedWriteError : Bool
  framed : Bool
  copiedToLast : Bool
  allocs : Nat
  decrefs : Nat
  wouldSpin : Bool
deriving DecidableEq

/-- Catch handler of `writeValues` when the exception arrived with
`done == false` (lines 186-195): substitute `sample = mLastSample`, then
`while (ret == 0) ret = mNode->write(&sample, 1);` (`ret` is still 0 at
every throw site), log on negative return, and do not rethrow.  A throw
from this second loop is not caught and escapes to the caller.  The
freshly allocated sample is abandoned without a `sample_decref`. -/
def wvFallback (st : State) (k : Nat) (e : Err) (writes : List (Except Err Int)) :
    WriteResult :=
  match drainLoop writes with
  | (n, LoopRes.code r _) =>
    { state := st, submitted := List.replicate n st.mLastSample,
      exportsRun := k, caught := some e, escaped := none,
      retCode := some r, loggedWriteError := r < 0,
      framed := false, copiedToLast := false,
      allocs := 1, decrefs := 0, wouldSpin := false }
  | (n, LoopRes.raised e2 _) =>
    { state := st, submitted := List.replicate n st.mLastSample,
      exportsRun := k, caught := some e, escaped := some e2,
      retCode := none, loggedWriteError := false,
      framed := false, copiedToLast := false,
      allocs := 1, decrefs := 0, wouldSpin := false }
  | (n, LoopRes.spun) =>
    { state := st, submitted := List.replicate n st.mLastSample,
      exportsRun := k, caught := some e, escaped := none,
      retCode := none, loggedWriteError := false,
      framed := false, copiedToLast := false,
      allocs := 1, decrefs := 0, wouldSpin := true }

/-- Normal write path after framing completed (`done = true`, lines
173-179): `do { ret = mNode->write(&sample, 1); } while (ret == 0);`,
log on negative `ret`, then unconditionally
`sample_copy(mLastSample, sample)`.  If a write call throws, the catch
handler keeps the fresh sample (`done == true`) and re-enters
`while (ret == 0)` on the remaining oracle; no copy to the
Last-Known-Good slot happens on that path, the already performed
`mSequence` increment stays, and a throw from the handler loop escapes.
The fresh sample is never released back to the pool. -/
def wvFramed (st1 : State) (k : Nat) (s2 : Sample) (writes : List (Except Err Int)) :
    WriteResult :=
  match drainLoop writes with
  | (n, LoopRes.code r _) =>
    { state := { st1 with mLastSample := s2 },
      submitted := List.replicate n s2,
      exportsRun := k, caught := none, escaped := none,
      retCode := some r, loggedWriteError := r < 0,
      framed := true, copiedToLast := true,
      allocs := 1, decrefs := 0, wouldSpin := false }
  | (n, LoopRes.raised e rest) =>
    match drainLoop rest with
    | (m, LoopRes.code r2 _) =>
      { state := st1, submitted := List.replicate n s2 ++ List.replicate m s2,
        exportsRun := k, caught := some e, escaped := none,
        retCode := some r2, loggedWriteError := r2 < 0,
        framed := true, copiedToLast := false,
        allocs := 1, decrefs := 0, wouldSpin := false }
    | (m, LoopRes.raised e2 _) =>
      { state := st1, submitted := List.replicate n s2 ++ List.replicate m s2,
        exportsRun := k, caught := some e, escaped := some e2,
        retCode := none, loggedWriteError := false,
        framed := true, copiedToLast := false,
        allocs := 1, decrefs := 0, wouldSpin := false }
    | (m, LoopRes.spun) =>
      { state := st1, submitted := List.replicate n s2 ++ List.replicate m s2,
        exportsRun := k, caught := some e, escaped := none,
        retCode := none, loggedWriteError := false,
        framed := true, copiedToLast := false,
        allocs := 1, decrefs := 0, wouldSpin := true }
  | (n, LoopRes.spun) =>
    { state := st1, submitted := List.replicate n s2,
      exportsRun := k, caught := none, escaped := none,
      retCode := none, loggedWriteError := false,
      framed := true, copiedToLast := false,
      allocs := 1, decrefs := 0, wouldSpin := true }

/-- `InterfaceVillas::writeValues` (lines 155-197).  Allocate a fresh
sample from `mSamplePool` and attach the node's input signals; run the
exporter hooks; on success frame the sample (`sequence = mSequence++`,
`flags |= HAS_DATA`, origin timestamp) setting `done = true`, and submit
through the retry loop (`wvFramed`).  If an exporter raises, `done` is
still false and the handler substitutes the Last-Known-Good sample
(`wvFallback`); `mSequence` was not yet incremented on that path. -/
def writeValues (st : State) (env : WriteEnv) : WriteResult :=
  match runHooks env.exports (sampleAlloc env.raw env.signals) with
  | (k, Except.error e) => wvFallback st k e env.writes
  | (k, Except.ok s1) =>
    wvFramed { st with mSequence := st.mSequence + 1 } k
      (frameSample st.mSequence env.now s1) env.writes

/-- Environment of one `readValues` call: the oracle of successive
`mNode->read` results, the inbound sample the node delivers on the first
positive return, and the registered importer hooks `mImports` (each reads
the sample and either succeeds or raises). -/
structure ReadEnv where
  reads : List (Except Err Int)
  inSample : Sample
  imports : List (Sample → Except Err Unit)

/-- How one `readValues` call ends: a normal return, an exception
propagating to the caller (`raised`), the fatal negative-read branch
(`close(); std::exit(1)`), or an exhausted read oracle while every call
returned 0 (the C++ loop would still be spinning). -/
inductive ReadOutcome where
  | returned
  | raised (e : Err)
  | exitFatal
  | wouldSpin
deriving DecidableEq

/-- Observable result of one `readValues` call: its outcome, how many
importer hooks were invoked, whether a sample was acquired from the
transport (`acquired`), and how many `sample_decref` releases ran. -/
structure ReadResult where
  outcome : ReadOutcome
  importsRun : Nat
  acquired : Nat
  decrefs : Nat
deriving DecidableEq

/-- Importer dispatch `for (auto imp : mImports) imp(sample);` of
`readValues`: returns the number of hooks invoked and the first
exception, if any; hooks after the first raising one never run. -/
def runImports : List (Sample → Except Err Unit) → Sample → Nat × Option Err
  | [], _ => (0, none)
  | f :: fs, s =>
    match f s with
    | Except.error e => (1, some e)
    | Except.ok _ =>
      let r := runImports fs s
      (r.1 + 1, r.2)

/-- `InterfaceVillas::readValues` (lines 126-153).  `sample` starts null;
`while (ret == 0) ret = mNode->read(&sample, 1);` drains would-block
returns.  A throw from `read` reaches the catch with `sample` still null,
so no release happens before the rethrow.  A negative return logs,
closes and exits.  A positive return delivers the inbound sample; the
importer hooks run in registration order, stopping at the first raising
hook; the sample is then released exactly once — by line 142 on success,
or by the catch handler before `throw exc`. -/
def readValues (env : ReadEnv) : ReadResult :=
  match drainLoop env.reads with
  | (_, LoopRes.spun) =>
    { outcome := ReadOutcome.wouldSpin, importsRun := 0, acquired := 0, decrefs := 0 }
  | (_, LoopRes.raised e _) =>
    { outcome := ReadOutcome.raised e, importsRun := 0, acquired := 0, decrefs := 0 }
  | (_, LoopRes.code r _) =>
    if r < 0 then
      { outcome := ReadOutcome.exitFatal, importsRun := 0, acquired := 0, decrefs := 0 }
    else
      match runImports env.imports env.inSample with
      | (k, none) =>
        { outcome := ReadOutcome.returned, importsRun := k, acquired := 1, decrefs := 1 }
      | (k, some e) =>
        { outcome := ReadOutcome.raised e, importsRun := k, acquired := 1, decrefs := 1 }

/-- Environment of the constructor: whether `node_type_lookup` knows the
node type, the `json_loads` outcome (`some (line, column)` is a parse
failure with its diagnostic, `none` is success), and the return codes of
`mNode->parse`, `mNode->check`, `node::memory::init`, `node::pool_init`
and `mNode->prepare`. -/
structure CtorEnv where
  typeKnown : Bool
  jsonDiag : Option (Nat × Nat)
  parseRet : Int
  checkRet : Int
  memoryInitRet : Int
  poolInitRet : Int
  prepareRet : Int
deriving DecidableEq

/-- How the constructor ends: the instance is constructed, a structured
error is thrown, or the process terminates via `std::exit(1)`. -/
inductive CtorOutcome where
  | constructed
  | raised (e : Err)
  | exitFatal
deriving DecidableEq

/-- Constructor result together with how far construction progressed:
whether the node instance (`std::make_unique<node::Node>`) was created
and whether the sample pool was initialized at the point the outcome was
decided. -/
structure CtorResult where
  outcome : CtorOutcome
  nodeCreated : Bool
  poolInitialized : Bool
deriving DecidableEq

/-- `InterfaceVillas::InterfaceVillas` (lines 29-82), in source order:
resolve the node type (unknown → log + `exit(1)`); create the node
instance (line 39, before the configuration is parsed); `json_loads`
(failure → `throw JsonError` with the parser diagnostic); `mNode->parse`
(negative → log + exit); `mNode->check` (negative → log + exit);
`node::memory::init(100)` (nonzero → `throw RuntimeError`, line 63);
`node::pool_init` (negative → log + exit); `mNode->prepare` (negative →
log + exit). -/
def construct (env : CtorEnv) : CtorResult :=
  if env.typeKnown = false then
    { outcome := CtorOutcome.exitFatal, nodeCreated := false, poolInitialized := false }
  else
    match env.jsonDiag with
    | some d =>
      { outcome := CtorOutcome.raised (Err.jsonError d.1 d.2),
        nodeCreated := true, poolInitialized := false }
    | none =>
      if env.parseRet < 0 then
        { outcome := CtorOutcome.exitFatal, nodeCreated := true, poolInitialized := false }
      else if env.checkRet < 0 then
        { outcome := CtorOutcome.exitFatal, nodeCreated := true, poolInitialized := false }
      else if env.memoryInitRet ≠ 0 then
        { outcome := CtorOutcome.raised Err.runtimeMemoryInit,
          nodeCreated := true, poolInitialized := false }
      else if env.poolInitRet < 0 then
        { outcome := CtorOutcome.exitFatal, nodeCreated := true, poolInitialized := false }
      else if env.prepareRet < 0 then
        { outcome := CtorOutcome.exitFatal, nodeCreated := true, poolInitialized := true }
      else
        { outcome := CtorOutcome.constructed, nodeCreated := true, poolInitialized := true }

/-- Environment of one `open` call: the `node_type_start` and
`mNode->start` return codes, the residual buffer contents the pool hands
out for the Last-Known-Good sample, and the node's input-signal
descriptor. -/
structure OpenEnv where
  typeStartRet : Int
  startRet : Int
  lkgRaw : List Int
  signals : Nat
deriving DecidableEq

/-- How `open` ends: the adapter is opened with the given state, a
`RuntimeError` is thrown (`node_type_start` nonzero, line 90), or the
process exits (`mNode->start` negative, line 96). -/
inductive OpenOutcome where
  | opened (st : State)
  | raised (e : Err)
  | exitFatal
deriving DecidableEq

/-- `InterfaceVillas::open` (lines 84-109).  After the node starts,
`mOpened = true`, `mSequence = 0`, and the Last-Known-Good sample is
allocated from the pool: its `signals` attached, `sequence` and origin
timestamp zeroed, and its data buffer zeroed by the `memset` of line 107
(modelled as zeroing every data entry; the byte-level
`capacity * sizeof(float)` arithmetic over the foreign sample layout is
outside the embedding).  Nothing sets any flag on this sample. -/
def openIV (env : OpenEnv) : OpenOutcome :=
  if env.typeStartRet ≠ 0 then OpenOutcome.raised Err.runtimeTypeStart
  else if env.startRet < 0 then OpenOutcome.exitFatal
  else
    OpenOutcome.opened
      { mSequence := 0,
        mLastSample :=
          { sampleAlloc env.lkgRaw env.signals with
              sequence := 0, tsSec := 0, tsNsec := 0,
              data := List.replicate env.lkgRaw.length 0 },
        mOpened := true }

/-- Fold a sequence of `writeValues` calls from a starting state,
returning the final state and the per-call results in order. -/
def runWrites : State → List WriteEnv → State × List WriteResult
  | st, [] => (st, [])
  | st, env :: envs =>
    let r := writeValues st env
    let rest := runWrites r.state envs
    (rest.1, r :: rest.2)

/-- A `writeValues` call is successful in the sense of the spec when no
exporter or transport exception occurred, the retry loop terminated, and
the final write return code is non-negative. -/
def successfulWrite (r : WriteResult) : Bool :=
  r.caught.isNone && r.escaped.isNone && !r.wouldSpin &&
    (match r.retCode with
     | some c => decide (0 ≤ c)
     | none => false)

/-! Reduction lemmas shared by the claim theorems. -/

/-- When an exporter hook raises, `writeValues` runs the `done == false`
catch handler. -/
lemma writeValues_hooks_error (st : State) (env : WriteEnv) (k : Nat) (e : Err)
    (h : runHooks env.exports (sampleAlloc env.raw env.signals) = (k, Except.error e)) :
    writeValues st env = wvFallback st k e env.writes := by
  unfold writeValues
  rw [h]

/-- When the exporter hooks complete, `writeValues` frames the sample,
increments `mSequence` and submits it. -/
lemma writeValues_hooks_ok (st : State) (env : WriteEnv) (k : Nat) (s1 : Sample)
    (h : runHooks env.exports (sampleAlloc env.raw env.signals) = (k, Except.ok s1)) :
    writeValues st env =
      wvFramed { st with mSequence := st.mSequence + 1 } k
        (frameSample st.mSequence env.now s1) env.writes := by
  unfold writeValues
  rw [h]

/-- Reduction of the fallback handler when its write loop exits with a
return code. -/
lemma wvFallback_code (st : State) (k : Nat) (e : Err)
    (writes rest : List (Except Err Int)) (n : Nat) (r : Int)
    (h : drainLoop writes = (n, LoopRes.code r rest)) :
    wvFallback st k e writes =
      { state := st, submitted := List.replicate n st.mLastSample,
        exportsRun := k, caught := some e, escaped := none,
        retCode := some r, loggedWriteError := r < 0,
        framed := false, copiedToLast := false,
        allocs := 1, decrefs := 0, wouldSpin := false } := by
  unfold wvFallback
  rw [h]

/-- Reduction of the framed write path when the retry loop exits with a
return code: the copy into the Last-Known-Good slot always runs. -/
lemma wvFramed_code (st1 : State) (k : Nat) (s2 : Sample)
    (writes rest : List (Except Err Int)) (n : Nat) (r : Int)
    (h : drainLoop writes = (n, LoopRes.code r rest)) :
    wvFramed st1 k s2 writes =
      { state := { st1 with mLastSample := s2 },
        submitted := List.replicate n s2,
        exportsRun := k, caught := none, escaped := none,
        retCode := some r, loggedWriteError := r < 0,
        framed := true, copiedToLast := true,
        allocs := 1, decrefs := 0, wouldSpin := false } := by
  unfold wvFramed
  rw [h]

/-- Reduction of the framed write path when the first retry loop raises
and the handler's loop then exits with a return code. -/
lemma wvFramed_raised_code (st1 : State) (k : Nat) (s2 : Sample)
    (writes rest rest2 : List (Except Err Int)) (n m : Nat) (e : Err) (r2 : Int)
    (h : drainLoop writes = (n, LoopRes.raised e rest))
    (h2 : drainLoop rest = (m, LoopRes.code r2 rest2)) :
    wvFramed st1 k s2 writes =
      { state := st1, submitted := List.replicate n s2 ++ List.replicate m s2,
        exportsRun := k, caught := some e, escaped := none,
        retCode := some r2, loggedWriteError := r2 < 0,
        framed := true, copiedToLast := false,
        allocs := 1, decrefs := 0, wouldSpin := false } := by
  unfold wvFramed
  rw [h]
  dsimp only
  rw [h2]

/-- The retry loop makes at least one call and exits on a nonzero code. -/
lemma drainLoop_code_pos (writes : List (Except Err Int)) :
    ∀ n r rest, drainLoop writes = (n, LoopRes.code r rest) → 1 ≤ n ∧ r ≠ 0 := by
  induction writes with
  | nil =>
    intro n r rest h
    simp [drainLoop] at h
  | cons hd tl ih =>
    intro n r rest h
    cases hd with
    | error e => simp [drainLoop] at h
    | ok c =>
      by_cases hc : c = 0
      · subst hc
        simp [drainLoop] at h
        rcases h with ⟨hn, hres⟩
        rcases ih (drainLoop tl).1 r rest (by rw [Prod.ext_iff]; exact ⟨rfl, hres⟩) with ⟨h1, h2⟩
        exact ⟨by omega, h2⟩
      · simp [drainLoop, hc] at h
        rcases h with ⟨hn, hr, _⟩
        subst hr
        exact ⟨by omega, hc⟩

/-- The state `open` produces: sequence counter 0, Last-Known-Good sample
with zeroed metadata and data and no flag set. -/
lemma openIV_opened (env : OpenEnv) (st : State)
    (h : openIV env = OpenOutcome.opened st) :
    st = { mSequence := 0,
           mLastSample :=
             { sequence := 0, flags := 0, tsSec := 0, tsNsec := 0,
               signals := env.signals,
               data := List.replicate env.lkgRaw.length 0 },
           mOpened := true } := by
  unfold openIV at h
  split_ifs at h
  all_goals
    first
    | exact OpenOutcome.noConfusion h
    | (injection h with h1; exact h1.symm)

/-- A successful `writeValues` call increments the sequence counter by
exactly one, submits at least one sample, and every submitted payload
carries the pre-call counter value as its sequence number. -/
lemma successful_step (st : State) (env : WriteEnv)
    (h : successfulWrite (writeValues st env) = true) :
    (writeValues st env).state.mSequence = st.mSequence + 1 ∧
    (writeValues st env).submitted ≠ [] ∧
    ∀ s ∈ (writeValues st env).submitted, s.sequence = st.mSequence := by
  rcases hr : runHooks env.exports (sampleAlloc env.raw env.signals) with ⟨k, res⟩
  rcases hd : drainLoop env.writes with ⟨n, lr⟩
  cases res with
  | error e =>
    rw [writeValues_hooks_error st env k e hr] at h
    unfold wvFallback at h
    rw [hd] at h
    cases lr <;> simp [successfulWrite] at h
  | ok s1 =>
    rw [writeValues_hooks_ok st env k s1 hr] at h ⊢
    cases lr with
    | code r rest =>
      rw [wvFramed_code _ k _ env.writes rest n r hd] at h ⊢
      have hpos := (drainLoop_code_pos env.writes n r rest hd).1
      refine ⟨rfl, ?_, ?_⟩
      · apply List.ne_nil_of_length_pos
        rw [List.length_replicate]
        omega
      · intro s hs
        rw [List.eq_of_mem_replicate hs]
        rfl
    | raised e rest =>
      unfold wvFramed at h
      rw [hd] at h
      dsimp only at h
      rcases hd2 : drainLoop rest with ⟨m, lr2⟩
      rw [hd2] at h
      cases lr2 <;> simp [successfulWrite] at h
    | spun =>
      unfold wvFramed at h
      rw [hd] at h
      simp [successfulWrite] at h

/-- `runWrites` produces one result per call. -/
lemma runWrites_length (envs : List WriteEnv) :
    ∀ st : State, (runWrites st envs).2.length = envs.length := by
  induction envs with
  | nil => intro st; rfl
  | cons env envs ih =>
    intro st
    simp [runWrites, ih]

/-- Across a trace of successful `writeValues` calls, the counter ends at
its start plus the number of calls, and the `i`-th call submits a
nonempty batch of payloads all carrying sequence number `start + i`. -/
lemma runWrites_seq (envs : List WriteEnv) :
    ∀ st : State,
      (∀ r ∈ (runWrites st envs).2, successfulWrite r = true) →
      (runWrites st envs).1.mSequence = st.mSequence + envs.length ∧
      ∀ i, i < envs.length →
        ∃ res, (runWrites st envs).2[i]? = some res ∧
          res.submitted ≠ [] ∧
          ∀ s ∈ res.submitted, s.sequence = st.mSequence + i := by
  induction envs with
  | nil =>
    intro st _
    refine ⟨rfl, ?_⟩
    intro i hi
    exact absurd hi (Nat.not_lt_zero i)
  | cons env envs ih =>
    intro st hgood
    have hhead : successfulWrite (writeValues st env) = true := by
      apply hgood
      simp [runWrites]
    have htail : ∀ r ∈ (runWrites (writeValues st env).state envs).2,
        successfulWrite r = true := by
      intro r hrmem
      apply hgood
      simp [runWrites]
      right
      exact hrmem
    rcases successful_step st env hhead with ⟨hseq, hne, hall⟩
    rcases ih (writeValues st env).state htail with ⟨hfin, hidx⟩
    constructor
    · simp only [runWrites]
      rw [hfin, hseq]
      simp [Nat.add_assoc, Nat.add_comm 1]
    · intro i hi
      cases i with
      | zero =>
        refine ⟨writeValues st env, ?_, hne, ?_⟩
        · simp [runWrites]
        · intro s hs
          rw [hall s hs]
          omega
      | succ j =>
        have hj : j < envs.length := by
          simp at hi
          omega
        rcases hidx j hj with ⟨res, hget, hne2, hall2⟩
        refine ⟨res, ?_, hne2, ?_⟩
        · simp only [runWrites]
          simpa using hget
        · intro s hs
          rw [hall2 s hs, hseq]
          omega

/-- With a known node type and a malformed configuration, the
constructor throws `JsonError` with the parser diagnostic; the node
instance was already created at that point, the pool was not. -/
lemma construct_badJson (env : CtorEnv) (d : Nat × Nat)
    (hk : env.typeKnown = true) (hj : env.jsonDiag = some d) :
    construct env =
      { outcome := CtorOutcome.raised (Err.jsonError d.1 d.2),
        nodeCreated := true, poolInitialized := false } := by
  simp [construct, hk, hj]

/-- When `node::memory::init` returns nonzero (earlier steps passing),
the constructor throws `RuntimeError` rather than exiting. -/
lemma construct_memFail (env : CtorEnv)
    (hk : env.typeKnown = true) (hj : env.jsonDiag = none)
    (hp : ¬ env.parseRet < 0) (hc : ¬ env.checkRet < 0)
    (hm : env.memoryInitRet ≠ 0) :
    construct env =
      { outcome := CtorOutcome.raised Err.runtimeMemoryInit,
        nodeCreated := true, poolInitialized := false } := by
  simp [construct, hk, hj, hp, hc, hm]

/-- When `node_type_start` returns nonzero, `open` throws
`RuntimeError`. -/
lemma openIV_typeStartFail (env : OpenEnv) (h : env.typeStartRet ≠ 0) :
    openIV env = OpenOutcome.raised Err.runtimeTypeStart := by
  simp [openIV, h]

/-- When the transport read succeeds and some importer raises,
`readValues` releases the inbound sample exactly once and rethrows. -/
lemma readValues_importer_raises (env : ReadEnv) (k n : Nat) (e : Err)
    (r : Int) (rest : List (Except Err Int))
    (hd : drainLoop env.reads = (n, LoopRes.code r rest)) (hr : ¬ r < 0)
    (hi : runImports env.imports env.inSample = (k, some e)) :
    readValues env =
      { outcome := ReadOutcome.raised e, importsRun := k,
        acquired := 1, decrefs := 1 } := by
  unfold readValues
  rw [hd]
  dsimp only
  rw [if_neg hr, hi]

/-- A non-throwing foreign-call oracle: every `mNode->read` or
`mNode->write` call returns an integer code rather than raising. -/
def noThrow : List (Except Err Int) → Bool
  | [] => true
  | Except.ok _ :: rest => noThrow rest
  | Except.error _ :: rest => false

/-- Over a non-throwing oracle, the retry loop never exits by an
exception. -/
lemma drainLoop_noThrow (ws : List (Except Err Int)) (h : noThrow ws = true) :
    ∀ n e rest, drainLoop ws ≠ (n, LoopRes.raised e rest) := by
  induction ws with
  | nil =>
    intro n e rest hcontra
    simp [drainLoop] at hcontra
  | cons hd tl ih =>
    intro n e rest hcontra
    cases hd with
    | error e2 => simp [noThrow] at h
    | ok c =>
      by_cases hc : c = 0
      · subst hc
        have h2 : noThrow tl = true := by simpa [noThrow] using h
        simp only [drainLoop, if_pos rfl] at hcontra
        rcases hd2 : drainLoop tl with ⟨m, lr⟩
        rw [hd2] at hcontra
        have hsnd : lr = LoopRes.raised e rest := congrArg Prod.snd hcontra
        exact ih h2 m e rest (by rw [hd2, hsnd])
      · simp [drainLoop, hc] at hcontra

/-- Importer dispatch stops at the first raising hook: with all earlier
hooks succeeding, exactly the hooks up to and including the raising one
run. -/
lemma runImports_stops (s : Sample) (e : Err) :
    ∀ (pre : List (Sample → Except Err Unit)) (bad : Sample → Except Err Unit)
      (post : List (Sample → Except Err Unit)),
      (∀ f ∈ pre, f s = Except.ok ()) → bad s = Except.error e →
      runImports (pre ++ bad :: post) s = (pre.length + 1, some e) := by
  intro pre
  induction pre with
  | nil =>
    intro bad post _ hbad
    simp [runImports, hbad]
  | cons f fs ih =>
    intro bad post hpre hbad
    have hf : f s = Except.ok () := hpre f (by simp)
    simp only [List.cons_append, runImports, hf, List.append_eq]
    rw [ih bad post (fun g hg => hpre g (List.mem_cons_of_mem f hg)) hbad]
    simp

/-! Claim theorems. -/

/-- C1: after `open` the sequence counter starts at 0, and for every
trace of successful `writeValues` calls (no exporter or transport
exception, terminating retry loop, non-negative write return) the `i`-th
call submits a nonempty batch of outbound samples all carrying sequence
number `i` — the outbound sequence numbers are 0, 1, 2, ... in order,
each successful call increments the counter by exactly one, and sequence
numbers are strictly monotonically increasing across successful calls. -/
theorem c1_sequence_monotone (oenv : OpenEnv) (st0 : State) (envs : List WriteEnv)
    (hopen : openIV oenv = OpenOutcome.opened st0)
    (hgood : ∀ r ∈ (runWrites st0 envs).2, successfulWrite r = true) :
    (runWrites st0 envs).1.mSequence = envs.length ∧
    (∀ i, i < envs.length →
      ∃ res, (runWrites st0 envs).2[i]? = some res ∧
        res.submitted ≠ [] ∧ ∀ s ∈ res.submitted, s.sequence = i) ∧
    (∀ i j resI resJ sI sJ, i < j → j < envs.length →
      (runWrites st0 envs).2[i]? = some resI →
      (runWrites st0 envs).2[j]? = some resJ →
      sI ∈ resI.submitted → sJ ∈ resJ.submitted →
      sI.sequence < sJ.sequence) := by
  have h0 : st0.mSequence = 0 := by
    rw [openIV_opened oenv st0 hopen]
  rcases runWrites_seq envs st0 hgood with ⟨hfin, hidx⟩
  rw [h0] at hfin
  simp only [Nat.zero_add] at hfin
  have hidx0 : ∀ i, i < envs.length →
      ∃ res, (runWrites st0 envs).2[i]? = some res ∧
        res.submitted ≠ [] ∧ ∀ s ∈ res.submitted, s.sequence = i := by
    intro i hi
    rcases hidx i hi with ⟨res, hget, hne, hall⟩
    refine ⟨res, hget, hne, ?_⟩
    intro s hs
    rw [hall s hs, h0]
    omega
  refine ⟨hfin, hidx0, ?_⟩
  intro i j resI resJ sI sJ hij hj hgetI hgetJ hsI hsJ
  rcases hidx0 i (Nat.lt_trans hij hj) with ⟨res, hget, _, hall⟩
  rcases hidx0 j hj with ⟨res2, hget2, _, hall2⟩
  have heqI : res = resI := Option.some.inj (hget.symm.trans hgetI)
  have heqJ : res2 = resJ := Option.some.inj (hget2.symm.trans hgetJ)
  subst heqI
  subst heqJ
  rw [hall sI hsI, hall2 sJ hsJ]
  exact hij

/-- Concrete `open` environment for witnesses: node-type start and node
start succeed, the pool hands out a one-entry buffer. -/
def oenvOk : OpenEnv := { typeStartRet := 0, startRet := 0, lkgRaw := [0], signals := 0 }

/-- The adapter state `open` produces from `oenvOk`. -/
def stOpenOk : State :=
  { mSequence := 0,
    mLastSample :=
      { sequence := 0, flags := 0, tsSec := 0, tsNsec := 0, signals := 0, data := [0] },
    mOpened := true }

/-- Concrete `writeValues` environment for witnesses: one identity
exporter, one would-block write then a successful one. -/
def wenvOk : WriteEnv :=
  { raw := [0], signals := 0, exports := [fun s => Except.ok s],
    now := (1, 2), writes := [Except.ok 0, Except.ok 1] }

/-- Witness for C1 at a concrete two-call trace. -/
theorem c1_sequence_monotone_witness :
    (runWrites stOpenOk [wenvOk, wenvOk]).1.mSequence = 2 ∧
    (∀ i, i < 2 →
      ∃ res, (runWrites stOpenOk [wenvOk, wenvOk]).2[i]? = some res ∧
        res.submitted ≠ [] ∧ ∀ s ∈ res.submitted, s.sequence = i) ∧
    (∀ i j resI resJ sI sJ, i < j → j < 2 →
      (runWrites stOpenOk [wenvOk, wenvOk]).2[i]? = some resI →
      (runWrites stOpenOk [wenvOk, wenvOk]).2[j]? = some resJ →
      sI ∈ resI.submitted → sJ ∈ resJ.submitted →
      sI.sequence < sJ.sequence) :=
  c1_sequence_monotone oenvOk stOpenOk [wenvOk, wenvOk] (by decide) (by decide)

/-- Concrete `writeValues` environment whose single exporter raises. -/
def wenvThrow : WriteEnv :=
  { raw := [0], signals := 0, exports := [fun _ => Except.error (Err.hook 0)],
    now := (1, 2), writes := [Except.ok 1] }

/-- Concrete `writeValues` environment whose write returns a negative
code at once (no exporter registered). -/
def wenvNeg : WriteEnv :=
  { raw := [0], signals := 0, exports := [],
    now := (1, 2), writes := [Except.ok (-1)] }

/-- Concrete `writeValues` environment whose first write call throws and
whose retry then succeeds (no exporter registered). -/
def wenvRaise : WriteEnv :=
  { raw := [0], signals := 0, exports := [],
    now := (1, 2), writes := [Except.error (Err.hook 1), Except.ok 1] }

/-- C2, evaluated at the failing inputs: `writeValues` acquires one
sample from `mSamplePool` and performs zero `sample_decref` releases on
the success path, on the negative-return path, and on the
exporter-exception path alike — the freshly allocated sample is never
released, contradicting the claimed release-exactly-once discipline
(while `readValues` does balance its acquisition with one release). -/
theorem c2_write_sample_leaked :
    ((writeValues stOpenOk wenvOk).allocs = 1 ∧
     (writeValues stOpenOk wenvOk).decrefs = 0) ∧
    ((writeValues stOpenOk wenvNeg).allocs = 1 ∧
     (writeValues stOpenOk wenvNeg).decrefs = 0) ∧
    ((writeValues stOpenOk wenvThrow).allocs = 1 ∧
     (writeValues stOpenOk wenvThrow).decrefs = 0) ∧
    (readValues { reads := [Except.ok 1], inSample := stOpenOk.mLastSample,
                  imports := [fun _ => Except.ok ()] }).acquired = 1 ∧
    (readValues { reads := [Except.ok 1], inSample := stOpenOk.mLastSample,
                  imports := [fun _ => Except.ok ()] }).decrefs = 1 := by
  decide

/-- C3: when an exporter hook raises before the sample is fully framed
(`done == false`), `writeValues` substitutes the Last-Known-Good sample
as the payload, re-enters the write retry loop with it, and propagates no
exception; on the first tick after `open` the submitted payloads carry
the open-initialized sample, whose data array is all zeros and whose
sequence is 0, and the sequence counter is not incremented. -/
theorem c3_exporter_throw_falls_back_to_lkg (oenv : OpenEnv) (st0 : State)
    (env : WriteEnv) (k n : Nat) (e : Err) (r : Int)
    (rest : List (Except Err Int))
    (hopen : openIV oenv = OpenOutcome.opened st0)
    (hexp : runHooks env.exports (sampleAlloc env.raw env.signals) = (k, Except.error e))
    (hdrain : drainLoop env.writes = (n, LoopRes.code r rest)) :
    (writeValues st0 env).caught = some e ∧
    (writeValues st0 env).escaped = none ∧
    (writeValues st0 env).submitted = List.replicate n st0.mLastSample ∧
    (writeValues st0 env).submitted ≠ [] ∧
    (∀ s ∈ (writeValues st0 env).submitted,
       s.data = List.replicate oenv.lkgRaw.length 0 ∧ s.sequence = 0) ∧
    (writeValues st0 env).state.mSequence = st0.mSequence ∧
    st0.mSequence = 0 := by
  have hst := openIV_opened oenv st0 hopen
  rw [writeValues_hooks_error st0 env k e hexp,
      wvFallback_code st0 k e env.writes rest n r hdrain]
  have hpos := (drainLoop_code_pos env.writes n r rest hdrain).1
  refine ⟨rfl, rfl, rfl, ?_, ?_, rfl, ?_⟩
  · apply List.ne_nil_of_length_pos
    rw [List.length_replicate]
    omega
  · intro s hs
    rw [List.eq_of_mem_replicate hs, hst]
    exact ⟨rfl, rfl⟩
  · rw [hst]

/-- Witness for C3: first tick after `open`, the only exporter raises,
the fallback write succeeds. -/
theorem c3_exporter_throw_falls_back_to_lkg_witness :
    (writeValues stOpenOk wenvThrow).caught = some (Err.hook 0) ∧
    (writeValues stOpenOk wenvThrow).escaped = none ∧
    (writeValues stOpenOk wenvThrow).submitted = List.replicate 1 stOpenOk.mLastSample ∧
    (writeValues stOpenOk wenvThrow).submitted ≠ [] ∧
    (∀ s ∈ (writeValues stOpenOk wenvThrow).submitted,
       s.data = List.replicate oenvOk.lkgRaw.length 0 ∧ s.sequence = 0) ∧
    (writeValues stOpenOk wenvThrow).state.mSequence = stOpenOk.mSequence ∧
    stOpenOk.mSequence = 0 :=
  c3_exporter_throw_falls_back_to_lkg oenvOk stOpenOk wenvThrow 1 1 (Err.hook 0) 1 []
    (by decide) (by decide) (by decide)

/-- C4 counterexample: a call that completes framing and whose node write
returns the negative code -1 still executes
`sample_copy(mLastSample, sample)` — the Last-Known-Good slot changes,
contradicting the claim that it is left unchanged on a negative
return. -/
theorem c4_counterexample_negative_return_still_copies :
    (writeValues stOpenOk wenvNeg).framed = true ∧
    (writeValues stOpenOk wenvNeg).caught = none ∧
    (writeValues stOpenOk wenvNeg).retCode = some (-1) ∧
    (writeValues stOpenOk wenvNeg).loggedWriteError = true ∧
    (writeValues stOpenOk wenvNeg).copiedToLast = true ∧
    (writeValues stOpenOk wenvNeg).state.mLastSample ≠ stOpenOk.mLastSample := by
  decide

/-- C4 amended: for every call that completes framing, if the write
retry loop exits with a return code the sample is copied into the
Last-Known-Good slot regardless of the code's sign (on a negative code
the failure is additionally logged, but the copy still happens and the
slot equals the submitted sample); if the write throws instead, no copy
happens and the slot is unchanged. -/
theorem c4_amended_copy_on_loop_exit :
    (∀ (st : State) (env : WriteEnv) (k : Nat) (s1 : Sample) (n : Nat)
       (r : Int) (rest : List (Except Err Int)),
       runHooks env.exports (sampleAlloc env.raw env.signals) = (k, Except.ok s1) →
       drainLoop env.writes = (n, LoopRes.code r rest) →
       (writeValues st env).copiedToLast = true ∧
       (writeValues st env).state.mLastSample = frameSample st.mSequence env.now s1 ∧
       (writeValues st env).submitted =
         List.replicate n (frameSample st.mSequence env.now s1) ∧
       (writeValues st env).loggedWriteError = decide (r < 0)) ∧
    (∀ (st : State) (env : WriteEnv) (k : Nat) (s1 : Sample) (n : Nat)
       (e : Err) (rest : List (Except Err Int)),
       runHooks env.exports (sampleAlloc env.raw env.signals) = (k, Except.ok s1) →
       drainLoop env.writes = (n, LoopRes.raised e rest) →
       (writeValues st env).copiedToLast = false ∧
       (writeValues st env).state.mLastSample = st.mLastSample) := by
  constructor
  · intro st env k s1 n r rest hexp hdrain
    rw [writeValues_hooks_ok st env k s1 hexp,
        wvFramed_code _ k _ env.writes rest n r hdrain]
    exact ⟨rfl, rfl, rfl, rfl⟩
  · intro st env k s1 n e rest hexp hdrain
    rw [writeValues_hooks_ok st env k s1 hexp]
    unfold wvFramed
    rw [hdrain]
    dsimp only
    rcases hd2 : drainLoop rest with ⟨m, lr2⟩
    cases lr2 <;> exact ⟨rfl, rfl⟩

/-- Witness for C4 amended, both conjuncts at concrete inputs: a
negative-return call that still copies, and a throwing write that leaves
the slot alone. -/
theorem c4_amended_copy_on_loop_exit_witness :
    ((writeValues stOpenOk wenvNeg).copiedToLast = true ∧
     (writeValues stOpenOk wenvNeg).state.mLastSample =
       frameSample stOpenOk.mSequence wenvNeg.now (sampleAlloc wenvNeg.raw wenvNeg.signals) ∧
     (writeValues stOpenOk wenvNeg).submitted =
       List.replicate 1 (frameSample stOpenOk.mSequence wenvNeg.now
         (sampleAlloc wenvNeg.raw wenvNeg.signals)) ∧
     (writeValues stOpenOk wenvNeg).loggedWriteError = decide ((-1 : Int) < 0)) ∧
    ((writeValues stOpenOk wenvRaise).copiedToLast = false ∧
     (writeValues stOpenOk wenvRaise).state.mLastSample = stOpenOk.mLastSample) :=
  ⟨c4_amended_copy_on_loop_exit.1 stOpenOk wenvNeg 0
      (sampleAlloc wenvNeg.raw wenvNeg.signals) 1 (-1) [] (by decide) (by decide),
   c4_amended_copy_on_loop_exit.2 stOpenOk wenvRaise 0
      (sampleAlloc wenvRaise.raw wenvRaise.signals) 1 (Err.hook 1) [Except.ok 1]
      (by decide) (by decide)⟩

/-- C5 counterexample: on the first tick after `open`, an exporter throw
makes `writeValues` submit the open-initialized Last-Known-Good sample,
whose flags are still clear — a sample passed to the node's write without
`HAS_DATA` set. -/
theorem c5_counterexample_first_tick_fallback_lacks_has_data :
    openIV oenvOk = OpenOutcome.opened stOpenOk ∧
    (writeValues stOpenOk wenvThrow).submitted = [stOpenOk.mLastSample] ∧
    (∃ s ∈ (writeValues stOpenOk wenvThrow).submitted, hasData s = false) := by
  decide

/-- C5 amended: `HAS_DATA` is set on every freshly framed sample handed
to the node's write; on the exporter-failure fallback the payload is the
Last-Known-Good sample unchanged, and after `open` that sample carries no
flags at all, so the first-tick fallback reaches the write without
`HAS_DATA`. -/
theorem c5_amended_has_data_on_framed_payloads :
    (∀ (st : State) (env : WriteEnv) (k : Nat) (s1 : Sample),
       runHooks env.exports (sampleAlloc env.raw env.signals) = (k, Except.ok s1) →
       ∀ s ∈ (writeValues st env).submitted, hasData s = true) ∧
    (∀ (st : State) (env : WriteEnv) (k : Nat) (e : Err),
       runHooks env.exports (sampleAlloc env.raw env.signals) = (k, Except.error e) →
       ∀ s ∈ (writeValues st env).submitted, s = st.mLastSample) ∧
    (∀ (oenv : OpenEnv) (st0 : State),
       openIV oenv = OpenOutcome.opened st0 → hasData st0.mLastSample = false) := by
  refine ⟨?_, ?_, ?_⟩
  · intro st env k s1 hexp s hs
    rw [writeValues_hooks_ok st env k s1 hexp] at hs
    unfold wvFramed at hs
    rcases hd : drainLoop env.writes with ⟨n, lr⟩
    rw [hd] at hs
    have hmem : s = frameSample st.mSequence env.now s1 := by
      cases lr with
      | code r rest =>
        exact List.eq_of_mem_replicate hs
      | raised e rest =>
        dsimp only at hs
        rcases hd2 : drainLoop rest with ⟨m, lr2⟩
        rw [hd2] at hs
        cases lr2 <;>
          (rcases List.mem_append.1 hs with h | h <;> exact List.eq_of_mem_replicate h)
      | spun =>
        exact List.eq_of_mem_replicate hs
    rw [hmem]
    simp [hasData, frameSample, HAS_DATA, Nat.testBit_or]
  · intro st env k e hexp s hs
    rw [writeValues_hooks_error st env k e hexp] at hs
    unfold wvFallback at hs
    rcases hd : drainLoop env.writes with ⟨n, lr⟩
    rw [hd] at hs
    cases lr <;> exact List.eq_of_mem_replicate hs
  · intro oenv st0 hopen
    rw [openIV_opened oenv st0 hopen]
    simp [hasData]

/-- Witness for C5 amended: a framed payload carrying `HAS_DATA`, a
fallback payload equal to the Last-Known-Good sample, and the flag-free
open-time sample. -/
theorem c5_amended_has_data_on_framed_payloads_witness :
    (∀ s ∈ (writeValues stOpenOk wenvOk).submitted, hasData s = true) ∧
    (∀ s ∈ (writeValues stOpenOk wenvThrow).submitted, s = stOpenOk.mLastSample) ∧
    hasData stOpenOk.mLastSample = false :=
  ⟨c5_amended_has_data_on_framed_payloads.1 stOpenOk wenvOk 1
      (sampleAlloc wenvOk.raw wenvOk.signals) (by decide),
   c5_amended_has_data_on_framed_payloads.2.1 stOpenOk wenvThrow 1 (Err.hook 0)
      (by decide),
   c5_amended_has_data_on_framed_payloads.2.2 oenvOk stOpenOk (by decide)⟩

/-- Concrete constructor environment with a known node type but a
malformed JSON configuration whose parser diagnostic is line 1,
column 2. -/
def ctorBadJson : CtorEnv :=
  { typeKnown := true, jsonDiag := some (1, 2), parseRet := 0, checkRet := 0,
    memoryInitRet := 0, poolInitRet := 0, prepareRet := 0 }

/-- Concrete constructor environment in which `node::memory::init`
returns the nonzero code 1 and every earlier step succeeds. -/
def ctorMemFail : CtorEnv :=
  { typeKnown := true, jsonDiag := none, parseRet := 0, checkRet := 0,
    memoryInitRet := 1, poolInitRet := 0, prepareRet := 0 }

/-- C6 counterexample: with a known node type and malformed JSON the
constructor does raise a structured `JsonError` carrying the parser
diagnostic and no sample pool has been initialized — but the node
instance has already been created, because `std::make_unique<Node>`
(line 39) runs before `json_loads` (line 43); the claim that no node
instance exists at the raise point is false. -/
theorem c6_counterexample_node_created_before_parse :
    (construct ctorBadJson).outcome = CtorOutcome.raised (Err.jsonError 1 2) ∧
    (construct ctorBadJson).poolInitialized = false ∧
    (construct ctorBadJson).nodeCreated = true := by
  decide

/-- C6 amended: for every construction with a known node type and
malformed JSON, the constructor raises a structured `JsonError` carrying
the parser diagnostic; at that point no sample pool has been
initialized, but the node instance has already been created (the node is
instantiated before the configuration is parsed). -/
theorem c6_amended_json_error_after_node_creation (env : CtorEnv) (d : Nat × Nat)
    (hknown : env.typeKnown = true) (hjson : env.jsonDiag = some d) :
    (construct env).outcome = CtorOutcome.raised (Err.jsonError d.1 d.2) ∧
    (construct env).poolInitialized = false ∧
    (construct env).nodeCreated = true := by
  rw [construct_badJson env d hknown hjson]
  exact ⟨rfl, rfl, rfl⟩

/-- Witness for C6 amended at the concrete malformed-JSON input. -/
theorem c6_amended_json_error_after_node_creation_witness :
    (construct ctorBadJson).outcome = CtorOutcome.raised (Err.jsonError 1 2) ∧
    (construct ctorBadJson).poolInitialized = false ∧
    (construct ctorBadJson).nodeCreated = true :=
  c6_amended_json_error_after_node_creation ctorBadJson (1, 2) (by decide) (by decide)

/-- C7 counterexample: the importer path is not the only one surfacing a
caller-visible error — `open` with a failing `node_type_start` throws a
`RuntimeError` to the caller. -/
theorem c7_counterexample_open_also_throws :
    openIV { typeStartRet := 1, startRet := 0, lkgRaw := [0], signals := 0 } =
      OpenOutcome.raised Err.runtimeTypeStart := by
  decide

/-- C7 amended: for every `readValues` call in which an importer hook
raises after a successful transport read, the inbound sample is released
exactly once and the exception is rethrown to the host; with a
non-throwing transport this is the only error path of the read/write
data plane — every raised `readValues` outcome comes from an importer,
and `writeValues` propagates nothing when the write oracle holds no
exception — but it is not the adapter's only caller-visible error: the
constructor throws `JsonError` on malformed configuration and
`RuntimeError` on memory-init failure, and `open` throws `RuntimeError`
on node-type start failure. -/
theorem c7_amended_importer_rethrow_and_other_throwers :
    (∀ (env : ReadEnv) (k n : Nat) (e : Err) (r : Int)
       (rest : List (Except Err Int)),
       drainLoop env.reads = (n, LoopRes.code r rest) → ¬ r < 0 →
       runImports env.imports env.inSample = (k, some e) →
       readValues env =
         { outcome := ReadOutcome.raised e, importsRun := k,
           acquired := 1, decrefs := 1 }) ∧
    (∀ (cenv : CtorEnv) (d : Nat × Nat), cenv.typeKnown = true →
       cenv.jsonDiag = some d →
       (construct cenv).outcome = CtorOutcome.raised (Err.jsonError d.1 d.2)) ∧
    (∀ cenv : CtorEnv, cenv.typeKnown = true → cenv.jsonDiag = none →
       ¬ cenv.parseRet < 0 → ¬ cenv.checkRet < 0 → cenv.memoryInitRet ≠ 0 →
       (construct cenv).outcome = CtorOutcome.raised Err.runtimeMemoryInit) ∧
    (∀ oenv : OpenEnv, oenv.typeStartRet ≠ 0 →
       openIV oenv = OpenOutcome.raised Err.runtimeTypeStart) ∧
    (∀ (env : ReadEnv) (e : Err), noThrow env.reads = true →
       (readValues env).outcome = ReadOutcome.raised e →
       runImports env.imports env.inSample =
         ((readValues env).importsRun, some e) ∧
       (readValues env).decrefs = 1) ∧
    (∀ (st : State) (env : WriteEnv), noThrow env.writes = true →
       (writeValues st env).escaped = none) := by
  refine ⟨?_, ?_, ?_, ?_, ?_, ?_⟩
  · intro env k n e r rest hd hr hi
    exact readValues_importer_raises env k n e r rest hd hr hi
  · intro cenv d hk hj
    rw [construct_badJson cenv d hk hj]
  · intro cenv hk hj hp hc hm
    rw [construct_memFail cenv hk hj hp hc hm]
  · intro oenv h
    exact openIV_typeStartFail oenv h
  · intro env e hok hout
    rcases hd : drainLoop env.reads with ⟨n, lr⟩
    cases lr with
    | spun =>
      have hv : readValues env =
          { outcome := ReadOutcome.wouldSpin, importsRun := 0,
            acquired := 0, decrefs := 0 } := by
        unfold readValues
        rw [hd]
      rw [hv] at hout
      simp at hout
    | raised e2 rest =>
      exact absurd hd (drainLoop_noThrow env.reads hok n e2 rest)
    | code r rest =>
      by_cases hr : r < 0
      · have hv : readValues env =
            { outcome := ReadOutcome.exitFatal, importsRun := 0,
              acquired := 0, decrefs := 0 } := by
          unfold readValues
          rw [hd]
          dsimp only
          rw [if_pos hr]
        rw [hv] at hout
        simp at hout
      · rcases hi : runImports env.imports env.inSample with ⟨k, res⟩
        cases res with
        | none =>
          have hv : readValues env =
              { outcome := ReadOutcome.returned, importsRun := k,
                acquired := 1, decrefs := 1 } := by
            unfold readValues
            rw [hd]
            dsimp only
            rw [if_neg hr, hi]
          rw [hv] at hout
          simp at hout
        | some e2 =>
          have hv := readValues_importer_raises env k n e2 r rest hd hr hi
          rw [hv] at hout ⊢
          have hout2 : ReadOutcome.raised e2 = ReadOutcome.raised e := hout
          have he : e2 = e := by
            injection hout2
          rw [he]
          exact ⟨rfl, rfl⟩
  · intro st env hok
    rcases hr : runHooks env.exports (sampleAlloc env.raw env.signals) with ⟨k, res⟩
    rcases hd : drainLoop env.writes with ⟨n, lr⟩
    cases res with
    | error e =>
      rw [writeValues_hooks_error st env k e hr]
      cases lr with
      | raised e2 rest =>
        exact absurd hd (drainLoop_noThrow env.writes hok n e2 rest)
      | code r rest =>
        rw [wvFallback_code st k e env.writes rest n r hd]
      | spun =>
        unfold wvFallback
        rw [hd]
    | ok s1 =>
      rw [writeValues_hooks_ok st env k s1 hr]
      cases lr with
      | raised e2 rest =>
        exact absurd hd (drainLoop_noThrow env.writes hok n e2 rest)
      | code r rest =>
        rw [wvFramed_code _ k _ env.writes rest n r hd]
      | spun =>
        unfold wvFramed
        rw [hd]

/-- Concrete `readValues` environment: one would-block read, then a
successful read; the second of three importers raises. -/
def renvThrow : ReadEnv :=
  { reads := [Except.ok 0, Except.ok 1], inSample := stOpenOk.mLastSample,
    imports := [fun _ => Except.ok (), fun _ => Except.error (Err.hook 7),
                fun _ => Except.ok ()] }

/-- Witness for C7 amended at concrete inputs for all six conjuncts. -/
theorem c7_amended_importer_rethrow_and_other_throwers_witness :
    readValues renvThrow =
      { outcome := ReadOutcome.raised (Err.hook 7), importsRun := 2,
        acquired := 1, decrefs := 1 } ∧
    (construct ctorBadJson).outcome = CtorOutcome.raised (Err.jsonError 1 2) ∧
    (construct ctorMemFail).outcome = CtorOutcome.raised Err.runtimeMemoryInit ∧
    openIV { typeStartRet := 2, startRet := 0, lkgRaw := [0], signals := 0 } =
      OpenOutcome.raised Err.runtimeTypeStart ∧
    (runImports renvThrow.imports renvThrow.inSample =
       ((readValues renvThrow).importsRun, some (Err.hook 7)) ∧
     (readValues renvThrow).decrefs = 1) ∧
    (writeValues stOpenOk wenvThrow).escaped = none :=
  ⟨c7_amended_importer_rethrow_and_other_throwers.1 renvThrow 2 2 (Err.hook 7) 1 []
      (by decide) (by decide) (by decide),
   c7_amended_importer_rethrow_and_other_throwers.2.1 ctorBadJson (1, 2)
      (by decide) (by decide),
   c7_amended_importer_rethrow_and_other_throwers.2.2.1 ctorMemFail
      (by decide) (by decide) (by decide) (by decide) (by decide),
   c7_amended_importer_rethrow_and_other_throwers.2.2.2.1
      { typeStartRet := 2, startRet := 0, lkgRaw := [0], signals := 0 } (by decide),
   c7_amended_importer_rethrow_and_other_throwers.2.2.2.2.1 renvThrow (Err.hook 7)
      (by decide) (by decide),
   c7_amended_importer_rethrow_and_other_throwers.2.2.2.2.2 stOpenOk wenvThrow
      (by decide)⟩

/-- C8 counterexample: with the memory subsystem init returning the
nonzero code 1 (all earlier steps succeeding), the constructor throws a
structured `RuntimeError` instead of logging and exiting — the claim that
this failure terminates the process like the other lifecycle failures is
false. -/
theorem c8_counterexample_memory_init_throws :
    (construct ctorMemFail).outcome = CtorOutcome.raised Err.runtimeMemoryInit ∧
    (construct ctorMemFail).outcome ≠ CtorOutcome.exitFatal := by
  decide

/-- C8 amended: a memory-subsystem init failure is the one construction
step whose failure throws a structured `RuntimeError` to the caller
(`if (ret) throw RuntimeError`, line 63) instead of logging and exiting;
the other fatal steps — unknown node type, negative `parse`, `check`,
`pool_init` or `prepare` return — do log and terminate the process. -/
theorem c8_amended_memory_init_raises_others_exit :
    (∀ cenv : CtorEnv, cenv.typeKnown = true → cenv.jsonDiag = none →
       ¬ cenv.parseRet < 0 → ¬ cenv.checkRet < 0 → cenv.memoryInitRet ≠ 0 →
       (construct cenv).outcome = CtorOutcome.raised Err.runtimeMemoryInit) ∧
    (∀ cenv : CtorEnv, cenv.typeKnown = false →
       (construct cenv).outcome = CtorOutcome.exitFatal) ∧
    (∀ cenv : CtorEnv, cenv.typeKnown = true → cenv.jsonDiag = none →
       cenv.parseRet < 0 → (construct cenv).outcome = CtorOutcome.exitFatal) ∧
    (∀ cenv : CtorEnv, cenv.typeKnown = true → cenv.jsonDiag = none →
       ¬ cenv.parseRet < 0 → cenv.checkRet < 0 →
       (construct cenv).outcome = CtorOutcome.exitFatal) ∧
    (∀ cenv : CtorEnv, cenv.typeKnown = true → cenv.jsonDiag = none →
       ¬ cenv.parseRet < 0 → ¬ cenv.checkRet < 0 → cenv.memoryInitRet = 0 →
       cenv.poolInitRet < 0 →
       (construct cenv).outcome = CtorOutcome.exitFatal) ∧
    (∀ cenv : CtorEnv, cenv.typeKnown = true → cenv.jsonDiag = none →
       ¬ cenv.parseRet < 0 → ¬ cenv.checkRet < 0 → cenv.memoryInitRet = 0 →
       ¬ cenv.poolInitRet < 0 → cenv.prepareRet < 0 →
       (construct cenv).outcome = CtorOutcome.exitFatal) := by
  refine ⟨?_, ?_, ?_, ?_, ?_, ?_⟩
  · intro cenv hk hj hp hc hm
    rw [construct_memFail cenv hk hj hp hc hm]
  · intro cenv hk
    simp [construct, hk]
  · intro cenv hk hj hp
    simp [construct, hk, hj, hp]
  · intro cenv hk hj hp hc
    simp [construct, hk, hj, hp, hc]
  · intro cenv hk hj hp hc hm hpool
    simp [construct, hk, hj, hp, hc, hm, hpool]
  · intro cenv hk hj hp hc hm hpool hprep
    simp [construct, hk, hj, hp, hc, hm, hpool, hprep]

/-- Witness for C8 amended: all six conjuncts at concrete constructor
environments. -/
theorem c8_amended_memory_init_raises_others_exit_witness :
    (construct ctorMemFail).outcome = CtorOutcome.raised Err.runtimeMemoryInit ∧
    (construct { typeKnown := false, jsonDiag := none, parseRet := 0, checkRet := 0,
                 memoryInitRet := 0, poolInitRet := 0, prepareRet := 0 }).outcome
      = CtorOutcome.exitFatal ∧
    (construct { typeKnown := true, jsonDiag := none, parseRet := -1, checkRet := 0,
                 memoryInitRet := 0, poolInitRet := 0, prepareRet := 0 }).outcome
      = CtorOutcome.exitFatal ∧
    (construct { typeKnown := true, jsonDiag := none, parseRet := 0, checkRet := -1,
                 memoryInitRet := 0, poolInitRet := 0, prepareRet := 0 }).outcome
      = CtorOutcome.exitFatal ∧
    (construct { typeKnown := true, jsonDiag := none, parseRet := 0, checkRet := 0,
                 memoryInitRet := 0, poolInitRet := -1, prepareRet := 0 }).outcome
      = CtorOutcome.exitFatal ∧
    (construct { typeKnown := true, jsonDiag := none, parseRet := 0, checkRet := 0,
                 memoryInitRet := 0, poolInitRet := 0, prepareRet := -1 }).outcome
      = CtorOutcome.exitFatal :=
  ⟨c8_amended_memory_init_raises_others_exit.1 ctorMemFail
      (by decide) (by decide) (by decide) (by decide) (by decide),
   c8_amended_memory_init_raises_others_exit.2.1 _ (by decide),
   c8_amended_memory_init_raises_others_exit.2.2.1 _ (by decide) (by decide) (by decide),
   c8_amended_memory_init_raises_others_exit.2.2.2.1 _ (by decide) (by decide)
      (by decide) (by decide),
   c8_amended_memory_init_raises_others_exit.2.2.2.2.1 _ (by decide) (by decide)
      (by decide) (by decide) (by decide) (by decide),
   c8_amended_memory_init_raises_others_exit.2.2.2.2.2 _ (by decide) (by decide)
      (by decide) (by decide) (by decide) (by decide) (by decide)⟩

/-- C9: when an exception arrives after the sample was fully framed
(`done == true`, the node write itself threw), the handler re-submits the
same freshly framed sample — not the Last-Known-Good one — retrying while
the return code is 0; the sequence increment already applied is kept, the
Last-Known-Good slot is not updated, and no exception propagates to the
caller. -/
theorem c9_write_throw_resubmits_framed_sample (st : State) (env : WriteEnv)
    (k n m : Nat) (s1 : Sample) (e : Err) (r2 : Int)
    (rest rest2 : List (Except Err Int))
    (hexp : runHooks env.exports (sampleAlloc env.raw env.signals) = (k, Except.ok s1))
    (hd1 : drainLoop env.writes = (n, LoopRes.raised e rest))
    (hd2 : drainLoop rest = (m, LoopRes.code r2 rest2)) :
    (writeValues st env).caught = some e ∧
    (writeValues st env).escaped = none ∧
    (writeValues st env).framed = true ∧
    (writeValues st env).submitted =
      List.replicate n (frameSample st.mSequence env.now s1) ++
        List.replicate m (frameSample st.mSequence env.now s1) ∧
    (writeValues st env).state.mSequence = st.mSequence + 1 ∧
    (writeValues st env).state.mLastSample = st.mLastSample ∧
    (writeValues st env).copiedToLast = false ∧
    (writeValues st env).retCode = some r2 := by
  rw [writeValues_hooks_ok st env k s1 hexp,
      wvFramed_raised_code _ k _ env.writes rest rest2 n m e r2 hd1 hd2]
  exact ⟨rfl, rfl, rfl, rfl, rfl, rfl, rfl, rfl⟩

/-- Witness for C9: the first write call throws, the retry succeeds. -/
theorem c9_write_throw_resubmits_framed_sample_witness :
    (writeValues stOpenOk wenvRaise).caught = some (Err.hook 1) ∧
    (writeValues stOpenOk wenvRaise).escaped = none ∧
    (writeValues stOpenOk wenvRaise).framed = true ∧
    (writeValues stOpenOk wenvRaise).submitted =
      List.replicate 1 (frameSample stOpenOk.mSequence wenvRaise.now
        (sampleAlloc wenvRaise.raw wenvRaise.signals)) ++
      List.replicate 1 (frameSample stOpenOk.mSequence wenvRaise.now
        (sampleAlloc wenvRaise.raw wenvRaise.signals)) ∧
    (writeValues stOpenOk wenvRaise).state.mSequence = stOpenOk.mSequence + 1 ∧
    (writeValues stOpenOk wenvRaise).state.mLastSample = stOpenOk.mLastSample ∧
    (writeValues stOpenOk wenvRaise).copiedToLast = false ∧
    (writeValues stOpenOk wenvRaise).retCode = some 1 :=
  c9_write_throw_resubmits_framed_sample stOpenOk wenvRaise 0 1 1
    (sampleAlloc wenvRaise.raw wenvRaise.signals) (Err.hook 1) 1 [Except.ok 1] []
    (by decide) (by decide) (by decide)

/-- C10: when an importer hook raises during `readValues` dispatch, the
hooks registered after the raising one are not invoked (exactly the
preceding hooks plus the raising one ran), the inbound sample is released
back, and the exception propagates. -/
theorem c10_importer_throw_stops_dispatch (env : ReadEnv) (n : Nat) (r : Int)
    (rest : List (Except Err Int))
    (pre post : List (Sample → Except Err Unit))
    (bad : Sample → Except Err Unit) (e : Err)
    (hd : drainLoop env.reads = (n, LoopRes.code r rest)) (hr : ¬ r < 0)
    (hsplit : env.imports = pre ++ bad :: post)
    (hpre : ∀ f ∈ pre, f env.inSample = Except.ok ())
    (hbad : bad env.inSample = Except.error e) :
    (readValues env).importsRun = pre.length + 1 ∧
    env.imports.length = pre.length + 1 + post.length ∧
    (readValues env).outcome = ReadOutcome.raised e ∧
    (readValues env).decrefs = 1 := by
  have hi : runImports env.imports env.inSample = (pre.length + 1, some e) := by
    rw [hsplit]
    exact runImports_stops env.inSample e pre bad post hpre hbad
  rw [readValues_importer_raises env (pre.length + 1) n e r rest hd hr hi]
  refine ⟨rfl, ?_, rfl, rfl⟩
  rw [hsplit]
  simp
  omega

/-- Witness for C10: three importers, the middle one raises; exactly two
ran. -/
theorem c10_importer_throw_stops_dispatch_witness :
    (readValues renvThrow).importsRun = 1 + 1 ∧
    renvThrow.imports.length = 1 + 1 + 1 ∧
    (readValues renvThrow).outcome = ReadOutcome.raised (Err.hook 7) ∧
    (readValues renvThrow).decrefs = 1 :=
  c10_importer_throw_stops_dispatch renvThrow 2 1 []
    [fun _ => Except.ok ()] [fun _ => Except.ok ()]
    (fun _ => Except.error (Err.hook 7)) (Err.hook 7)
    (by decide) (by decide) rfl
    (by
      intro f hf
      rw [List.mem_singleton] at hf
      rw [hf])
    rfl

end InterfaceVillas
